import Mathlib

/-!
Shallow embedding of `src/getstream-video-call/index.js`: four Firebase
callable handlers (`generateStreamToken`, `createUser`, `getUserProfile`,
`createVideoSession`) over a Firestore-like document store and an external
Stream client. External collaborators (Firestore network behaviour, the
Stream SDK, the system clock) are modelled as explicit environment
parameters; handler bodies are translated statement by statement from the
JavaScript source, including its try/catch structure.
-/

/-- The error code of a thrown `HttpsError` (firebase-functions `code` values
used in the source: "unauthenticated", "invalid-argument",
"permission-denied", "not-found", "internal"). -/
inductive ErrCode where
  | unauthenticated
  | invalidArgument
  | permissionDenied
  | notFound
  | internal
deriving DecidableEq, Repr

/-- A `new HttpsError(code, message)` value as surfaced to the caller
(diagnostic third arguments are dropped; they are never part of the
primary signal). -/
structure HttpsError where
  code : ErrCode
  message : String
deriving DecidableEq, Repr

/-- The verified auth context of a callable invocation (`request.auth`):
`none` models an unauthenticated call. -/
structure Auth where
  uid : String
deriving DecidableEq, Repr

/-- JSON-like values appearing in handler return objects and request data. -/
inductive JVal where
  | str : String → JVal
  | num : Nat → JVal
  | bool : Bool → JVal
  | null : JVal
  | arr : List String → JVal
deriving DecidableEq, Repr

/-- A JavaScript object literal as returned by a handler: an ordered list of
field-name/value pairs, so that the presence and name of each field is
observable. -/
abbrev Obj : Type := List (String × JVal)

instance {ε α : Type} [DecidableEq ε] [DecidableEq α] : DecidableEq (Except ε α) :=
  fun a b =>
    match a, b with
    | .error e, .error e' =>
        if h : e = e' then .isTrue (by rw [h]) else .isFalse (by intro hc; cases hc; exact h rfl)
    | .error _, .ok _ => .isFalse (by intro hc; cases hc)
    | .ok _, .error _ => .isFalse (by intro hc; cases hc)
    | .ok v, .ok v' =>
        if h : v = v' then .isTrue (by rw [h]) else .isFalse (by intro hc; cases hc; exact h rfl)

/-- Field access `o.k` on a returned object. -/
def lookupField : Obj → String → Option JVal
  | [], _ => none
  | (k, v) :: t, k' => if k = k' then some v else lookupField t k'

/-- A Firestore collection: document ids mapped to documents, as an
association list. -/
abbrev Store (α : Type) : Type := List (String × α)

/-- Firestore `collection.doc(k).get()` (point lookup, no error on absence). -/
def getDoc {α : Type} : Store α → String → Option α
  | [], _ => none
  | (k, d) :: t, k' => if k = k' then some d else getDoc t k'

/-- Firestore `collection.doc(k).set(d)` or a completed `update` merge: replaces the
document at `k` if present, otherwise inserts it. -/
def setDoc {α : Type} : Store α → String → α → Store α
  | [], k, d => [(k, d)]
  | (k', d') :: t, k, d => if k' = k then (k, d) :: t else (k', d') :: setDoc t k d

/-- A document of the `users_` collection as manipulated by this code:
`photoURL` and `role` may be `null`/absent (`none`), timestamps are epoch
milliseconds and may be absent on documents written by other means. -/
structure UserDoc where
  displayName : String
  email : String
  photoURL : Option String
  createdAt : Option Nat
  updatedAt : Option Nat
  role : Option String
deriving DecidableEq, Repr

/-- A document of the `videoSessions` collection. -/
structure SessionDoc where
  createdBy : String
  participants : List String
  createdAt : Nat
  status : String
deriving DecidableEq, Repr

/-- JS `x || null` for an optional string field (absent or empty string
collapses to `null`). -/
def jsOrNull : Option String → Option String
  | none => none
  | some s => if s = "" then none else some s

/-- Rendering of an optional string field into a returned object
(`null` when absent). -/
def jvalOfOptStr : Option String → JVal
  | none => .null
  | some s => .str s

/-- Rendering of `userData.createdAt?.toDate?.() || null`. -/
def jvalOfOptNat : Option Nat → JVal
  | none => .null
  | some t => .num t

/-! ## generateStreamToken -/

/-- Environment of `generateStreamToken`: the external Stream client's
`generateCallToken`, whether that call throws, the clock (`Date.now()` in
epoch ms) and the external `Date.prototype.toISOString` rendering. -/
structure TokenEnv where
  genCallToken : String → String
  genTokenFails : Bool
  now : Nat
  isoOfMs : Nat → String

/-- Handler `generateStreamToken` (index.js lines 24-56): reject unauthenticated
callers; otherwise mint a token, returning fields `token`, `expiresAt`
(now + 24h in ms) and `generated` (ISO instant); any Stream-client error is
rewrapped as `internal`. -/
def generateStreamToken (env : TokenEnv) (auth : Option Auth) : Except HttpsError Obj :=
  match auth with
  | none =>
      .error ⟨.unauthenticated, "User must be authenticated to generate a Stream token."⟩
  | some ctx =>
      if env.genTokenFails then
        .error ⟨.internal, "Unable to generate Stream token."⟩
      else
        .ok [("token", .str (env.genCallToken ctx.uid)),
             ("expiresAt", .num (env.now + 24 * 60 * 60 * 1000)),
             ("generated", .str (env.isoOfMs env.now))]

/-! ## createUser -/

/-- The `request.data` of `createUser`: each field is absent (or a non-string
value, which the validation treats identically) or a string. -/
structure UpsertInput where
  uid : Option String
  displayName : Option String
  email : Option String
  photoURL : Option String
deriving DecidableEq, Repr

/-- JavaScript `String.prototype.trim`: strip whitespace from both ends
(modelled structurally over the character list so it is kernel-computable;
`Char.isWhitespace` covers the whitespace the claims exercise). -/
def jsTrim (s : String) : String :=
  String.mk (((s.data.dropWhile Char.isWhitespace).reverse.dropWhile Char.isWhitespace).reverse)

/-- JavaScript `s.includes(c)` for a single-character needle: containment of
the character in the string. -/
def jsIncludesChar (s : String) (c : Char) : Bool :=
  s.data.contains c

/-- The check `!x || typeof x !== "string" || x.trim() === ""` used for
`uid` and `displayName`. -/
def invalidStrField : Option String → Bool
  | none => true
  | some s => jsTrim s = ""

/-- The check `!x || typeof x !== "string" || !x.includes("@")` used for
`email` (an empty string is falsy and also lacks `@`). -/
def invalidEmail : Option String → Bool
  | none => true
  | some s => s = "" || !(jsIncludesChar s '@')

/-- One call to `streamClient.user.create({id, name, image})` as attempted
by `createUser` (recorded whether or not the Stream service then fails). -/
structure StreamUserCall where
  id : String
  name : String
  image : Option String
deriving DecidableEq, Repr

/-- Environment of `createUser`: the `users_` store, whether each Firestore
operation throws, whether `streamClient.user.create` rejects, and the
server-assigned timestamp value. -/
structure UpsertEnv where
  users : Store UserDoc
  getFails : Bool
  updateFails : Bool
  setFails : Bool
  streamCreateFails : Bool
  serverNow : Nat

/-- Outcome of a `createUser` invocation: the value returned or error
thrown, the final `users_` store, and the list of Stream-registration
calls that were attempted. -/
structure UpsertResult where
  res : Except HttpsError Obj
  users : Store UserDoc
  streamCalls : List StreamUserCall
deriving DecidableEq

/-- Handler `createUser` (index.js lines 69-145): validate `uid`, `displayName`,
`email` in that order (each failure is `invalid-argument`); then look the
profile up; if it exists, update the three fields plus `updatedAt` and
return `updated: true`; otherwise set a fresh document, attempt a
best-effort Stream registration (its failure only logged), and return
`created: true`. Any Firestore error inside the try is rewrapped as
`internal`. -/
def createUser (env : UpsertEnv) (user : UpsertInput) : UpsertResult :=
  if invalidStrField user.uid then
    ⟨.error ⟨.invalidArgument, "The function must be called with a valid uid."⟩, env.users, []⟩
  else if invalidStrField user.displayName then
    ⟨.error ⟨.invalidArgument, "The function must be called with a valid displayName."⟩, env.users, []⟩
  else if invalidEmail user.email then
    ⟨.error ⟨.invalidArgument, "The function must be called with a valid email."⟩, env.users, []⟩
  else
    let uid := user.uid.getD ""
    let dn := user.displayName.getD ""
    let em := user.email.getD ""
    if env.getFails then
      ⟨.error ⟨.internal, "Failed to create user."⟩, env.users, []⟩
    else
      match getDoc env.users uid with
      | some old =>
          if env.updateFails then
            ⟨.error ⟨.internal, "Failed to create user."⟩, env.users, []⟩
          else
            ⟨.ok [("result", .str ("User with UID " ++ uid ++ " updated successfully.")),
                  ("updated", .bool true)],
             setDoc env.users uid
               { old with displayName := dn, email := em,
                          photoURL := jsOrNull user.photoURL,
                          updatedAt := some env.serverNow },
             []⟩
      | none =>
          if env.setFails then
            ⟨.error ⟨.internal, "Failed to create user."⟩, env.users, []⟩
          else
            ⟨.ok [("result", .str ("User with UID " ++ uid ++ " created successfully.")),
                  ("created", .bool true)],
             setDoc env.users uid
               ⟨dn, em, jsOrNull user.photoURL, some env.serverNow, some env.serverNow, none⟩,
             [⟨uid, dn, user.photoURL⟩]⟩

/-! ## getUserProfile -/

/-- The `request.data` of `getUserProfile` (the whole `data` object may be
absent, and `userId` within it may be absent). -/
structure ReadData where
  userId : Option String
deriving DecidableEq, Repr

/-- Environment of `getUserProfile`: the `users_` store and, per document
id, whether `get()` on it throws (store unavailability). -/
structure ReadEnv where
  users : Store UserDoc
  getFails : String → Bool

/-- A value thrown inside a try block: either an `HttpsError` raised by the
handler itself or a non-Https error from the Firestore client. JS `catch`
catches both indiscriminately. -/
inductive Thrown where
  | https : HttpsError → Thrown
  | clientError : Thrown

/-- Body of the admin-permission try block (index.js lines 168-180): fetch
the requester's own profile; throw `permission-denied` if it is absent or
its `role` is not `"admin"`. -/
def adminCheckBody (env : ReadEnv) (requester : String) : Except Thrown Unit :=
  if env.getFails requester then
    .error .clientError
  else
    match getDoc env.users requester with
    | none =>
        .error (.https ⟨.permissionDenied, "Only admins can access other user profiles."⟩)
    | some ud =>
        if ud.role = some "admin" then .ok ()
        else .error (.https ⟨.permissionDenied, "Only admins can access other user profiles."⟩)

/-- Body of the profile-fetch try block (index.js lines 190-208): fetch the
resolved target; throw `not-found` if absent, else build the returned
object. -/
def fetchProfileBody (env : ReadEnv) (userId : String) : Except Thrown Obj :=
  if env.getFails userId then
    .error .clientError
  else
    match getDoc env.users userId with
    | none =>
        .error (.https ⟨.notFound, "User with ID " ++ userId ++ " not found."⟩)
    | some ud =>
        .ok [("uid", .str userId),
             ("displayName", .str ud.displayName),
             ("email", .str ud.email),
             ("photoURL", jvalOfOptStr ud.photoURL),
             ("createdAt", jvalOfOptNat ud.createdAt)]

/-- The profile-fetch try block together with its catch (index.js lines
190-216): ANY error thrown inside — including the handler's own
`not-found` `HttpsError` — is caught and rewrapped as `internal`. -/
def fetchProfileCaught (env : ReadEnv) (userId : String) : Except HttpsError Obj :=
  match fetchProfileBody env userId with
  | .error _ => .error ⟨.internal, "Failed to fetch user profile."⟩
  | .ok v => .ok v

/-- Handler `getUserProfile` (index.js lines 155-217): reject unauthenticated
callers; if `request.data?.userId` is truthy and differs from the caller's
uid, run the admin check (whose catch rewraps every failure, including the
store's own errors, as `permission-denied`), resolving the target to the
supplied id; then fetch the resolved target's profile inside the second
try/catch. -/
def getUserProfile (env : ReadEnv) (auth : Option Auth) (data : Option ReadData) :
    Except HttpsError Obj :=
  match auth with
  | none =>
      .error ⟨.unauthenticated, "User must be authenticated to access profiles."⟩
  | some a =>
      let supplied := data.bind ReadData.userId
      let other : Option String :=
        match supplied with
        | some s => if s = "" ∨ s = a.uid then none else some s
        | none => none
      match other with
      | some s =>
          match adminCheckBody env a.uid with
          | .error _ => .error ⟨.permissionDenied, "Failed to verify permissions."⟩
          | .ok _ => fetchProfileCaught env s
      | none => fetchProfileCaught env a.uid

/-! ## createVideoSession -/

/-- The `request.data` of `createVideoSession`: `participants` is `none`
when missing or not an array. -/
structure SessionData where
  participants : Option (List String)
deriving DecidableEq, Repr

/-- Environment of `createVideoSession`: the `videoSessions` store, whether
the `set()` throws, `Date.now()` in ms, the random id suffix, the
ISO rendering of `new Date()`, and the server-assigned timestamp. -/
structure SessionEnv where
  sessions : Store SessionDoc
  setFails : Bool
  nowMs : Nat
  randSuffix : String
  isoNow : String
  serverNow : Nat

/-- Outcome of a `createVideoSession` invocation: the value returned or
error thrown and the final `videoSessions` store. -/
structure SessionResult where
  res : Except HttpsError Obj
  sessions : Store SessionDoc
deriving DecidableEq

/-- The generated session identifier
`session-${Date.now()}-${Math.random().toString(36).substring(2, 9)}`. -/
def sessionIdOf (env : SessionEnv) : String :=
  "session-" ++ toString env.nowMs ++ "-" ++ env.randSuffix

/-- Handler `createVideoSession` (index.js lines 227-276): reject unauthenticated
callers; reject a missing, non-array or empty `participants` with
`invalid-argument`; push the caller's uid onto the array when it is not
already included; then store the session document with status `active` and
return its id, creation instant and participants. Firestore errors inside
the try are rewrapped as `internal`. -/
def createVideoSession (env : SessionEnv) (auth : Option Auth) (data : Option SessionData) :
    SessionResult :=
  match auth with
  | none =>
      ⟨.error ⟨.unauthenticated, "User must be authenticated to create video sessions."⟩,
       env.sessions⟩
  | some a =>
      match data.bind SessionData.participants with
      | none =>
          ⟨.error ⟨.invalidArgument, "Must provide an array of participant user IDs."⟩,
           env.sessions⟩
      | some ps =>
          if ps.length < 1 then
            ⟨.error ⟨.invalidArgument, "Must provide an array of participant user IDs."⟩,
             env.sessions⟩
          else
            let finalPs := if a.uid ∈ ps then ps else ps ++ [a.uid]
            if env.setFails then
              ⟨.error ⟨.internal, "Failed to create video session."⟩, env.sessions⟩
            else
              ⟨.ok [("sessionId", .str (sessionIdOf env)),
                    ("createdAt", .str env.isoNow),
                    ("participants", .arr finalPs)],
               setDoc env.sessions (sessionIdOf env) ⟨a.uid, finalPs, env.serverNow, "active"⟩⟩

/-! ## Store lemmas -/

theorem getDoc_setDoc_self {α : Type} (s : Store α) (k : String) (d : α) :
    getDoc (setDoc s k d) k = some d := by
  induction s with
  | nil => simp [setDoc, getDoc]
  | cons hd t ih =>
      obtain ⟨k', d'⟩ := hd
      by_cases h : k' = k
      · simp [setDoc, getDoc, h]
      · simp [setDoc, getDoc, h, ih]

theorem getDoc_setDoc_ne {α : Type} (s : Store α) (k k' : String) (d : α) (h : k' ≠ k) :
    getDoc (setDoc s k d) k' = getDoc s k' := by
  induction s with
  | nil => simp [setDoc, getDoc, Ne.symm h]
  | cons hd t ih =>
      obtain ⟨k'', d''⟩ := hd
      by_cases hk : k'' = k
      · subst hk
        simp [setDoc, getDoc, Ne.symm h]
      · simp [setDoc, getDoc, hk, ih]

/-- Every error escaping the profile-fetch try/catch is the generic
`internal` one: the handler's own `not-found` throw is swallowed by its
catch block. -/
theorem fetchProfileCaught_error_internal (env : ReadEnv) (userId : String) (e : HttpsError)
    (h : fetchProfileCaught env userId = .error e) :
    e = ⟨.internal, "Failed to fetch user profile."⟩ := by
  unfold fetchProfileCaught at h
  cases hb : fetchProfileBody env userId with
  | error t => rw [hb] at h; injection h with h2; exact h2.symm
  | ok v => rw [hb] at h; cases h

/-! ## Concrete fixtures shared by the claim checks -/

/-- A stored profile without a role. -/
def docBob : UserDoc := ⟨"Bob", "bob@x.io", none, some 100, some 100, none⟩

/-- A stored profile with role `admin`. -/
def docAda : UserDoc := ⟨"Ada", "ada@x.io", some "ada.png", some 50, some 60, some "admin"⟩

/-- A session environment with an empty store and a fixed clock/suffix. -/
def sessEnv1 : SessionEnv := ⟨[], false, 5, "rnd", "ISO", 9⟩

/-- A token environment with a deterministic Stream client and clock. -/
def tokenEnv1 : TokenEnv := ⟨fun u => "tok-" ++ u, false, 0, fun _ => "1970-01-01T00:00:00.000Z"⟩

/-! ## Claim theorems -/

/-- C1: the claim fails and the code is the slip. With an authenticated
caller whose resolved target (here: the caller themselves) has no stored
profile, the handler throws its `not-found` `HttpsError` inside the second
try block, but that block's own catch swallows it and rewraps it as
`internal` — so the surfaced failure is `Internal`, not `NotFound`, even
though the thrown message shows `NotFound` was the intent. -/
theorem getUserProfile_missing_profile_surfaces_internal :
    getUserProfile ⟨[], fun _ => false⟩ (some ⟨"a"⟩) none
      = .error ⟨.internal, "Failed to fetch user profile."⟩ := rfl

/-- C8: every unauthenticated invocation of issueToken
(`generateStreamToken`), readProfile (`getUserProfile`) or createSession
(`createVideoSession`) fails with `Unauthenticated`, for every environment
and every request payload — in particular before any validation outcome,
store content, store failure or directory behaviour can influence the
result, and without touching the session store. -/
theorem unauthenticated_always_rejected (e1 : TokenEnv) (e2 : ReadEnv) (e3 : SessionEnv)
    (d2 : Option ReadData) (d3 : Option SessionData) :
    generateStreamToken e1 none
        = .error ⟨.unauthenticated, "User must be authenticated to generate a Stream token."⟩
    ∧ getUserProfile e2 none d2
        = .error ⟨.unauthenticated, "User must be authenticated to access profiles."⟩
    ∧ (createVideoSession e3 none d3).res
        = .error ⟨.unauthenticated, "User must be authenticated to create video sessions."⟩
    ∧ (createVideoSession e3 none d3).sessions = e3.sessions :=
  ⟨rfl, rfl, rfl, rfl⟩

/-- C9 counterexample: a successful issueToken call whose output has no
field named `generatedAt` — the ISO-instant field is named `generated`. -/
theorem issueToken_output_lacks_generatedAt :
    generateStreamToken tokenEnv1 (some ⟨"u"⟩)
      = .ok [("token", .str "tok-u"), ("expiresAt", .num 86400000),
             ("generated", .str "1970-01-01T00:00:00.000Z")]
    ∧ lookupField [("token", .str "tok-u"), ("expiresAt", .num 86400000),
                   ("generated", .str "1970-01-01T00:00:00.000Z")] "generatedAt" = none :=
  ⟨rfl, rfl⟩

/-- C9 amended: every successful issueToken call returns exactly the
fields `token`, `expiresAt` and `generated` (not `generatedAt`), where
`expiresAt` is the issuance instant plus 24 hours in epoch milliseconds
and `generated` is the ISO-8601 rendering of the issuance instant. -/
theorem issueToken_success_fields (env : TokenEnv) (u : Auth)
    (h : env.genTokenFails = false) :
    generateStreamToken env (some u)
      = .ok [("token", .str (env.genCallToken u.uid)),
             ("expiresAt", .num (env.now + 24 * 60 * 60 * 1000)),
             ("generated", .str (env.isoOfMs env.now))] := by
  unfold generateStreamToken
  simp [h]

/-- C9 witness: the amended statement evaluated on a concrete environment. -/
theorem issueToken_success_fields_witness :
    generateStreamToken tokenEnv1 (some ⟨"w"⟩)
      = .ok [("token", .str "tok-w"), ("expiresAt", .num 86400000),
             ("generated", .str "1970-01-01T00:00:00.000Z")] :=
  issueToken_success_fields tokenEnv1 ⟨"w"⟩ rfl

/-- C7: an authenticated createSession call with a non-empty participants
array stores and returns a participant list that always contains the
caller's uid: the input itself when the caller is already listed, and the
input with the caller appended otherwise. -/
theorem createSession_includes_caller (env : SessionEnv) (a : Auth) (data : Option SessionData)
    (ps : List String) (hp : data.bind SessionData.participants = some ps)
    (hne : ps ≠ []) (hset : env.setFails = false) :
    let finalPs := if a.uid ∈ ps then ps else ps ++ [a.uid]
    (createVideoSession env (some a) data).res
        = .ok [("sessionId", .str (sessionIdOf env)), ("createdAt", .str env.isoNow),
               ("participants", .arr finalPs)]
    ∧ getDoc (createVideoSession env (some a) data).sessions (sessionIdOf env)
        = some ⟨a.uid, finalPs, env.serverNow, "active"⟩
    ∧ a.uid ∈ finalPs
    ∧ (a.uid ∈ ps → finalPs = ps)
    ∧ (a.uid ∉ ps → finalPs = ps ++ [a.uid]) := by
  intro finalPs
  have hlen : ¬ps.length < 1 := by
    simp [Nat.lt_one_iff, List.length_eq_zero, hne]
  have hmem : a.uid ∈ finalPs := by
    by_cases hin : a.uid ∈ ps
    · simp [finalPs, hin]
    · simp [finalPs, hin]
  refine ⟨?_, ?_, hmem, ?_, ?_⟩
  · unfold createVideoSession
    simp [hp, hlen, hset, finalPs]
  · unfold createVideoSession
    simp [hp, hne, hlen, hset, getDoc_setDoc_self, finalPs]
  · intro hin; simp [finalPs, hin]
  · intro hin; simp [finalPs, hin]

/-- C7 witness: caller `a` with participants `[b, c]` yields exactly the
duplicate-free collection `[b, c, a]`, both returned and stored. -/
theorem createSession_includes_caller_witness :
    (["b", "c", "a"] : List String).Nodup
    ∧ ((createVideoSession sessEnv1 (some ⟨"a"⟩) (some ⟨some ["b", "c"]⟩)).res
          = .ok [("sessionId", .str "session-5-rnd"), ("createdAt", .str "ISO"),
                 ("participants", .arr ["b", "c", "a"])]
        ∧ getDoc (createVideoSession sessEnv1 (some ⟨"a"⟩) (some ⟨some ["b", "c"]⟩)).sessions
              "session-5-rnd"
          = some ⟨"a", ["b", "c", "a"], 9, "active"⟩
        ∧ "a" ∈ ["b", "c", "a"]
        ∧ ("a" ∈ ["b", "c"] → ["b", "c", "a"] = ["b", "c"])
        ∧ ("a" ∉ ["b", "c"] → ["b", "c", "a"] = ["b", "c"] ++ ["a"])) :=
  ⟨by decide, createSession_includes_caller sessEnv1 ⟨"a"⟩ (some ⟨some ["b", "c"]⟩)
      ["b", "c"] rfl (by decide) rfl⟩

/-- C10: when the caller is already among the supplied participants, the
array is stored and returned exactly as given — no deduplication, so
duplicates in the input survive. -/
theorem createSession_keeps_given_array (env : SessionEnv) (a : Auth) (data : Option SessionData)
    (ps : List String) (hp : data.bind SessionData.participants = some ps)
    (hmem : a.uid ∈ ps) (hset : env.setFails = false) :
    (createVideoSession env (some a) data).res
        = .ok [("sessionId", .str (sessionIdOf env)), ("createdAt", .str env.isoNow),
               ("participants", .arr ps)]
    ∧ getDoc (createVideoSession env (some a) data).sessions (sessionIdOf env)
        = some ⟨a.uid, ps, env.serverNow, "active"⟩ := by
  have hne : ps ≠ [] := List.ne_nil_of_mem hmem
  have h := createSession_includes_caller env a data ps hp hne hset
  simp only [hmem, if_pos] at h
  exact ⟨h.1, h.2.1⟩

/-- C10 witness: caller `b` with participants `[b, b]` gets `[b, b]` back,
duplicates intact. -/
theorem createSession_keeps_given_array_witness :
    (createVideoSession sessEnv1 (some ⟨"b"⟩) (some ⟨some ["b", "b"]⟩)).res
        = .ok [("sessionId", .str "session-5-rnd"), ("createdAt", .str "ISO"),
               ("participants", .arr ["b", "b"])]
    ∧ getDoc (createVideoSession sessEnv1 (some ⟨"b"⟩) (some ⟨some ["b", "b"]⟩)).sessions
          "session-5-rnd"
        = some ⟨"b", ["b", "b"], 9, "active"⟩ :=
  createSession_keeps_given_array sessEnv1 ⟨"b"⟩ (some ⟨some ["b", "b"]⟩) ["b", "b"]
    rfl (by decide) rfl

/-- C3 counterexample: the supplied target id `""` differs from the
caller's uid `"a"`, the caller's profile has no admin role, and yet the
call does not fail with `PermissionDenied`: the code tests the supplied id
for JS truthiness, so the empty string is treated as "no target supplied"
and the caller's own profile is returned. -/
theorem readProfile_blank_target_skips_authorization :
    ("" ≠ "a")
    ∧ getDoc ([("a", docBob)] : Store UserDoc) "a" = some docBob
    ∧ docBob.role ≠ some "admin"
    ∧ getUserProfile ⟨[("a", docBob)], fun _ => false⟩ (some ⟨"a"⟩) (some ⟨some ""⟩)
        = .ok [("uid", .str "a"), ("displayName", .str "Bob"), ("email", .str "bob@x.io"),
               ("photoURL", .null), ("createdAt", .num 100)] :=
  ⟨by decide, rfl, by decide, rfl⟩

/-- C3 amended: for every readProfile call whose supplied target id is
non-empty and differs from the caller's uid, unless the caller's own
profile lookup succeeds and finds role `admin`, the call fails with
`PermissionDenied` — including when the lookup itself errors, which is
never surfaced as `Internal`. -/
theorem readProfile_nonself_admin_gate (env : ReadEnv) (a : Auth) (data : Option ReadData)
    (s : String) (hs : data.bind ReadData.userId = some s) (hne : s ≠ "") (hdiff : s ≠ a.uid)
    (hnadm : env.getFails a.uid = true ∨ getDoc env.users a.uid = none ∨
             ∀ d, getDoc env.users a.uid = some d → d.role ≠ some "admin") :
    getUserProfile env (some a) data
      = .error ⟨.permissionDenied, "Failed to verify permissions."⟩ := by
  have hadm : ∃ t, adminCheckBody env a.uid = .error t := by
    unfold adminCheckBody
    rcases hnadm with h | h | h
    · exact ⟨.clientError, by simp [h]⟩
    · cases hg : env.getFails a.uid
      · exact ⟨.https ⟨.permissionDenied, "Only admins can access other user profiles."⟩,
          by simp [hg, h]⟩
      · exact ⟨.clientError, by simp [hg]⟩
    · cases hg : env.getFails a.uid
      · cases hd : getDoc env.users a.uid with
        | none =>
            exact ⟨.https ⟨.permissionDenied, "Only admins can access other user profiles."⟩,
              by simp [hg, hd]⟩
        | some d =>
            exact ⟨.https ⟨.permissionDenied, "Only admins can access other user profiles."⟩,
              by simp [hg, hd, h d hd]⟩
      · exact ⟨.clientError, by simp [hg]⟩
  obtain ⟨t, ht⟩ := hadm
  unfold getUserProfile
  simp [hs, hne, hdiff, ht]

/-- C3 witness: the amended statement on a concrete environment in which
the admin-check store lookup itself errors — the surfaced failure is
`PermissionDenied`, not `Internal`. -/
theorem readProfile_nonself_admin_gate_witness :
    getUserProfile ⟨[("a", docAda)], fun s => s == "a"⟩ (some ⟨"a"⟩) (some ⟨some "b"⟩)
      = .error ⟨.permissionDenied, "Failed to verify permissions."⟩ :=
  readProfile_nonself_admin_gate ⟨[("a", docAda)], fun s => s == "a"⟩ ⟨"a"⟩
    (some ⟨some "b"⟩) "b" rfl (by decide) (by decide) (.inl (by decide))

/-- An empty upsert environment with server time 7. -/
def envEmpty7 : UpsertEnv := ⟨[], false, false, false, false, 7⟩

/-- An upsert environment whose store already holds a profile (with a role)
under id `u1`. -/
def envAda7 : UpsertEnv := ⟨[("u1", docAda)], false, false, false, false, 7⟩

/-- A valid upsert input for id `u1`. -/
def inputU1 : UpsertInput := ⟨some "u1", some "Bob", some "bob@x.io", none⟩

/-- A valid upsert input for id `u`. -/
def inputU : UpsertInput := ⟨some "u", some "N", some "n@x.io", none⟩

/-- C6: an upsert whose input has a missing/blank uid, a missing/blank
display name, or an email without `@` fails with `InvalidArgument`, with
the message of the first violated check in validation order; the profile
store is left unchanged, no directory call is attempted, and the outcome
is independent of the environment (no store read happens). -/
theorem upsert_invalid_input_rejected (env : UpsertEnv) (user : UpsertInput)
    (h : invalidStrField user.uid = true ∨ invalidStrField user.displayName = true ∨
         invalidEmail user.email = true) :
    (createUser env user).res = .error ⟨.invalidArgument,
        if invalidStrField user.uid then "The function must be called with a valid uid."
        else if invalidStrField user.displayName then
          "The function must be called with a valid displayName."
        else "The function must be called with a valid email."⟩
    ∧ (createUser env user).users = env.users
    ∧ (createUser env user).streamCalls = []
    ∧ ∀ env2 : UpsertEnv, (createUser env2 user).res = (createUser env user).res := by
  cases h1 : invalidStrField user.uid
  · cases h2 : invalidStrField user.displayName
    · cases h3 : invalidEmail user.email
      · simp [h1, h2, h3] at h
      · unfold createUser; simp [h1, h2, h3]
    · unfold createUser; simp [h1, h2]
  · unfold createUser; simp [h1]

/-- C6 witness: a blank uid is rejected with the uid message, leaving the
(empty) store untouched and making no directory call. -/
theorem upsert_invalid_input_rejected_witness :
    (createUser envEmpty7 ⟨some "", some "N", some "n@x.io", none⟩).res
        = .error ⟨.invalidArgument, "The function must be called with a valid uid."⟩
    ∧ (createUser envEmpty7 ⟨some "", some "N", some "n@x.io", none⟩).users = envEmpty7.users
    ∧ (createUser envEmpty7 ⟨some "", some "N", some "n@x.io", none⟩).streamCalls = [] := by
  have h := upsert_invalid_input_rejected envEmpty7 ⟨some "", some "N", some "n@x.io", none⟩
    (.inl (by decide))
  exact ⟨h.1, h.2.1, h.2.2.1⟩

/-- C5: an upsert on an identifier whose profile already exists overwrites
exactly display name, email, photo URL (null when absent from the input)
and the update timestamp, preserves the stored creation timestamp and any
existing role, leaves every other document untouched, and returns
`updated: true`. -/
theorem upsert_existing_updates_fields (env : UpsertEnv) (user : UpsertInput)
    (s dn em : String) (old : UserDoc)
    (hu : user.uid = some s) (hdn : user.displayName = some dn) (hem : user.email = some em)
    (hvu : invalidStrField user.uid = false) (hvd : invalidStrField user.displayName = false)
    (hve : invalidEmail user.email = false)
    (hg : env.getFails = false) (hupd : env.updateFails = false)
    (hold : getDoc env.users s = some old) :
    (createUser env user).res
        = .ok [("result", .str ("User with UID " ++ s ++ " updated successfully.")),
               ("updated", .bool true)]
    ∧ getDoc (createUser env user).users s
        = some { old with displayName := dn, email := em,
                          photoURL := jsOrNull user.photoURL, updatedAt := some env.serverNow }
    ∧ (getDoc (createUser env user).users s).map UserDoc.createdAt = some old.createdAt
    ∧ (getDoc (createUser env user).users s).map UserDoc.role = some old.role
    ∧ (user.photoURL = none →
        (getDoc (createUser env user).users s).map UserDoc.photoURL = some none)
    ∧ ∀ k, k ≠ s → getDoc (createUser env user).users k = getDoc env.users k := by
  rw [hu] at hvu
  rw [hdn] at hvd
  rw [hem] at hve
  have hC : createUser env user
      = ⟨.ok [("result", .str ("User with UID " ++ s ++ " updated successfully.")),
              ("updated", .bool true)],
         setDoc env.users s
           { old with displayName := dn, email := em,
                      photoURL := jsOrNull user.photoURL, updatedAt := some env.serverNow },
         []⟩ := by
    unfold createUser
    simp [hvu, hvd, hve, hg, hupd, hu, hdn, hem, hold]
  refine ⟨?_, ?_, ?_, ?_, ?_, ?_⟩
  · rw [hC]
  · rw [hC]; exact getDoc_setDoc_self _ _ _
  · rw [hC]; rw [getDoc_setDoc_self]; rfl
  · rw [hC]; rw [getDoc_setDoc_self]; rfl
  · intro hnone; rw [hC]; rw [getDoc_setDoc_self]; simp [jsOrNull, hnone]
  · intro k hk; rw [hC]; exact getDoc_setDoc_ne _ _ _ _ hk

/-- C5 witness: a second upsert for `u1` overwrites name/email/photo and
the update timestamp while keeping the original creation timestamp 50 and
the `admin` role, and reports `updated: true`. -/
theorem upsert_existing_updates_fields_witness :
    (createUser envAda7 inputU1).res
        = .ok [("result", .str "User with UID u1 updated successfully."),
               ("updated", .bool true)]
    ∧ getDoc (createUser envAda7 inputU1).users "u1"
        = some ⟨"Bob", "bob@x.io", none, some 50, some 7, some "admin"⟩ := by
  have h := upsert_existing_updates_fields envAda7 inputU1 "u1" "Bob" "bob@x.io" docAda
    rfl rfl rfl (by decide) (by decide) (by decide) rfl rfl rfl
  exact ⟨h.1, h.2.1⟩

/-- C4: once validation and the store write have succeeded, a failing
Stream registration changes nothing: the returned value and the final
store are identical whether `streamClient.user.create` rejects or not, the
create branch still reports `created: true`, the written document stays in
the store, and the update branch still reports `updated: true`. -/
theorem upsert_outcome_independent_of_directory (env : UpsertEnv) (user : UpsertInput)
    (s : String) (hu : user.uid = some s)
    (hvu : invalidStrField user.uid = false) (hvd : invalidStrField user.displayName = false)
    (hve : invalidEmail user.email = false)
    (hg : env.getFails = false) (hupd : env.updateFails = false) (hset : env.setFails = false) :
    (createUser {env with streamCreateFails := true} user).res = (createUser env user).res
    ∧ (createUser {env with streamCreateFails := true} user).users
        = (createUser env user).users
    ∧ (getDoc env.users s = none →
        (createUser {env with streamCreateFails := true} user).res
            = .ok [("result", .str ("User with UID " ++ s ++ " created successfully.")),
                   ("created", .bool true)]
        ∧ getDoc (createUser {env with streamCreateFails := true} user).users s
            = some ⟨user.displayName.getD "", user.email.getD "", jsOrNull user.photoURL,
                    some env.serverNow, some env.serverNow, none⟩)
    ∧ (∀ d, getDoc env.users s = some d →
        (createUser {env with streamCreateFails := true} user).res
            = .ok [("result", .str ("User with UID " ++ s ++ " updated successfully.")),
                   ("updated", .bool true)]) := by
  rw [hu] at hvu
  refine ⟨rfl, rfl, ?_, ?_⟩
  · intro hn
    have hC : createUser env user
        = ⟨.ok [("result", .str ("User with UID " ++ s ++ " created successfully.")),
                ("created", .bool true)],
           setDoc env.users s
             ⟨user.displayName.getD "", user.email.getD "", jsOrNull user.photoURL,
              some env.serverNow, some env.serverNow, none⟩,
           [⟨s, user.displayName.getD "", user.photoURL⟩]⟩ := by
      unfold createUser
      simp [hvu, hvd, hve, hg, hset, hu, hn]
    constructor
    · show (createUser env user).res = _
      rw [hC]
    · show getDoc (createUser env user).users s = _
      rw [hC]; exact getDoc_setDoc_self _ _ _
  · intro d hd
    show (createUser env user).res = _
    unfold createUser
    simp [hvu, hvd, hve, hg, hupd, hu, hd]

/-- C4 witness: with the Stream registration rejecting, the create branch
still returns `created: true`, its outcome matches the non-failing run,
and the written profile remains stored. -/
theorem upsert_outcome_independent_of_directory_witness :
    (createUser ⟨[], false, false, false, true, 7⟩ inputU).res
        = (createUser envEmpty7 inputU).res
    ∧ (createUser ⟨[], false, false, false, true, 7⟩ inputU).res
        = .ok [("result", .str "User with UID u created successfully."),
               ("created", .bool true)]
    ∧ getDoc (createUser ⟨[], false, false, false, true, 7⟩ inputU).users "u"
        = some ⟨"N", "n@x.io", none, some 7, some 7, none⟩ := by
  have h := upsert_outcome_independent_of_directory envEmpty7 inputU "u" rfl
    (by decide) (by decide) (by decide) rfl rfl rfl
  exact ⟨h.1, (h.2.2.1 rfl).1, (h.2.2.1 rfl).2⟩

/-- C2 counterexample: a validated upsert whose store write succeeds in
the update branch returns `updated: true` with the write in place, yet
attempts no directory registration — `streamClient.user.create` is only
reached in the create branch. -/
theorem upsert_update_branch_skips_directory :
    (createUser envAda7 inputU1).res
        = .ok [("result", .str "User with UID u1 updated successfully."),
               ("updated", .bool true)]
    ∧ getDoc (createUser envAda7 inputU1).users "u1"
        = some ⟨"Bob", "bob@x.io", none, some 50, some 7, some "admin"⟩
    ∧ (createUser envAda7 inputU1).streamCalls = [] :=
  ⟨rfl, rfl, rfl⟩

/-- C2 amended: after a validated upsert whose store write succeeds, the
handler attempts the external directory registration before returning in
the create branch only; in the update branch it returns without any
directory call. -/
theorem upsert_directory_call_only_in_create_branch (env : UpsertEnv) (user : UpsertInput)
    (s dn : String) (hu : user.uid = some s) (hdn : user.displayName = some dn)
    (hvu : invalidStrField user.uid = false) (hvd : invalidStrField user.displayName = false)
    (hve : invalidEmail user.email = false) (hg : env.getFails = false) :
    (getDoc env.users s = none → env.setFails = false →
        (createUser env user).streamCalls = [⟨s, dn, user.photoURL⟩])
    ∧ (∀ d, getDoc env.users s = some d → (createUser env user).streamCalls = []) := by
  rw [hu] at hvu
  rw [hdn] at hvd
  constructor
  · intro hn hset
    unfold createUser
    simp [hvu, hvd, hve, hg, hu, hdn, hn, hset]
  · intro d hd
    cases hupd : env.updateFails <;>
      · unfold createUser
        simp [hvu, hvd, hve, hg, hu, hdn, hd, hupd]

/-- C2 amended witness: in the create branch the registration call for the
new identifier is attempted. -/
theorem upsert_directory_call_only_in_create_branch_witness :
    (createUser envEmpty7 inputU).streamCalls = [⟨"u", "N", none⟩] :=
  (upsert_directory_call_only_in_create_branch envEmpty7 inputU "u" "N" rfl rfl
    (by decide) (by decide) (by decide) rfl).1 rfl rfl
